import Mathlib

/-
Verification of the Line-pointer ML training/serving pipeline.

Shallow embedding of the feature-engineering, training, selection, and
registry code in:
  src/ml-service/train_model.py   (ComprehensiveMLPipeline and the legacy
                                   engineer_features / winner-model path)
  src/ml-service/serve.py         (the /predict endpoint)
  src/scripts/ml/train_model.py   (the standalone scripts trainer)

Modelling conventions:
  - Python floats are modelled as exact rationals; the claims checked
    here concern only comparisons, exact arithmetic identities and
    data-flow, none of which depend on rounding.
  - Pandas missing values (NaN in a column) are modelled as `Option`:
    `none` is a missing entry, `some q` a present value.
  - A wall-clock timestamp is an effect of the Python code; the embedding
    passes it as an explicit argument.
-/

set_option autoImplicit false

namespace LinePointer

/- ------------------------------------------------------------------ -/
/- Numeric helpers shared by the embedded functions.                   -/
/- ------------------------------------------------------------------ -/

/-- Sorted insertion of one rational into a sorted list (helper for the
pandas median). -/
def insertQ (x : ℚ) : List ℚ → List ℚ
  | [] => [x]
  | y :: ys => if x ≤ y then x :: y :: ys else y :: insertQ x ys

/-- Insertion sort on rationals (helper for the pandas median). -/
def sortQ : List ℚ → List ℚ
  | [] => []
  | x :: xs => insertQ x (sortQ xs)

/-- Mean of a list of present values; pandas `Series.mean()` skips NaN and
returns NaN on an empty list, modelled as `none`. -/
def meanQ (xs : List ℚ) : Option ℚ :=
  if xs.length = 0 then none else some (xs.sum / (xs.length : ℚ))

/-- Median of a list of present values, as pandas computes it: sort, take
the middle element for odd length, the average of the two middle elements
for even length, NaN (`none`) for an empty list. Sorting preserves length,
so the middle positions are indexed by the input length. -/
def medianQ (xs : List ℚ) : Option ℚ :=
  if xs.length = 0 then none
  else if xs.length % 2 = 1 then some ((sortQ xs).getD (xs.length / 2) 0)
  else some (((sortQ xs).getD (xs.length / 2 - 1) 0 +
              (sortQ xs).getD (xs.length / 2) 0) / 2)

/- ------------------------------------------------------------------ -/
/- Movement-as-fraction-of-opening features (claim C2).                -/
/- ------------------------------------------------------------------ -/

/-- serve.py line 145: `spread_movement / abs(game.openingSpread) if
game.openingSpread != 0 else 0`. -/
def servingSpreadMovementPct (openingSpread closingSpread : ℚ) : ℚ :=
  if openingSpread ≠ 0 then (closingSpread - openingSpread) / |openingSpread| else 0

/-- serve.py line 148: `total_movement / game.openingTotal if
game.openingTotal != 0 else 0`. -/
def servingTotalMovementPct (openingTotal closingTotal : ℚ) : ℚ :=
  if openingTotal ≠ 0 then (closingTotal - openingTotal) / openingTotal else 0

/-- ml-service/train_model.py line 472 (legacy engineer_features), per row:
`spread_movement / df['openingSpread'].abs().replace(0, 1)` — the absolute
opening spread with zeros replaced by 1 is the divisor. -/
def legacySpreadMovementPct (openingSpread closingSpread : ℚ) : ℚ :=
  (closingSpread - openingSpread) / (if |openingSpread| = 0 then 1 else |openingSpread|)

/-- ml-service/train_model.py line 476 (legacy engineer_features), per row:
`total_movement / df['openingTotal'].replace(0, 1)`. -/
def legacyTotalMovementPct (openingTotal closingTotal : ℚ) : ℚ :=
  (closingTotal - openingTotal) / (if openingTotal = 0 then 1 else openingTotal)

/- ------------------------------------------------------------------ -/
/- Ensemble blend of src/scripts/ml/train_model.py (claim C9).         -/
/- ------------------------------------------------------------------ -/

/-- scripts/ml/train_model.py line 255: ensemble weight of random_forest. -/
def wRandomForest : ℚ := 35 / 100

/-- scripts/ml/train_model.py line 256: ensemble weight of xgboost. -/
def wXGBoost : ℚ := 40 / 100

/-- scripts/ml/train_model.py line 257: ensemble weight of
logistic_regression. -/
def wLogistic : ℚ := 25 / 100

/-- scripts/ml/train_model.py lines 260-264: the blended probability for one
test row (the Python code computes this vectorized over the test set). -/
def ensembleProba (rf xgb lr : ℚ) : ℚ :=
  wRandomForest * rf + wXGBoost * xgb + wLogistic * lr

/-- scripts/ml/train_model.py line 265: `(ensemble_proba >= 0.5).astype(int)`
for one test row. -/
def ensemblePred (rf xgb lr : ℚ) : Bool :=
  decide (ensembleProba rf xgb lr ≥ 1 / 2)

/- ------------------------------------------------------------------ -/
/- Serving confidence field (claim C10).                               -/
/- ------------------------------------------------------------------ -/

/-- serve.py line 212: `confidence=float(max(winner_prob, 1 - winner_prob)
* 100)`. -/
def predictConfidence (p : ℚ) : ℚ := max p (1 - p) * 100

/- ------------------------------------------------------------------ -/
/- StandardScaler and the two scaling flows (claim C1).                -/
/- ------------------------------------------------------------------ -/

/-- The fitted per-feature parameters of an sklearn StandardScaler for one
feature column: `mean_` and `var_`. The stored `scale_` is the square root
of `var_` (irrational in general); since every claim checked here concerns
only which rows the parameters were fitted on and that applying the
transform never mutates them, the embedding carries `var_` itself. -/
structure ScalerParams where
  mean : ℚ
  var : ℚ
deriving DecidableEq, Repr

/-- Mean of one feature column, as StandardScaler.fit computes `mean_`. -/
def colMean (xs : List ℚ) : ℚ := xs.sum / (xs.length : ℚ)

/-- Population variance of one feature column, as StandardScaler.fit
computes `var_`. -/
def colVar (xs : List ℚ) : ℚ :=
  ((xs.map (fun x => (x - colMean xs) ^ 2)).sum) / (xs.length : ℚ)

/-- `StandardScaler().fit(xs)` on one feature column: records the column's
mean and variance as the fitted parameters. -/
def fitScaler (xs : List ℚ) : ScalerParams := ⟨colMean xs, colVar xs⟩

/-- `scaler.transform(xs)`: a pure function of the frozen parameters and the
data; it returns the parameters unchanged together with the scaled column.
A scaled value (x - mean)/sqrt(var) is represented injectively (for the
fixed fitted var) by the pair of the centered value and the fitted
variance. -/
def scalerTransform (p : ScalerParams) (xs : List ℚ) :
    ScalerParams × List (ℚ × ℚ) :=
  (p, xs.map (fun x => (x - p.mean, p.var)))

/-- `scaler.fit_transform(xs)`: fit on `xs`, then transform `xs`. -/
def scalerFitTransform (xs : List ℚ) : ScalerParams × List (ℚ × ℚ) :=
  scalerTransform (fitScaler xs) xs

/-- ml-service/train_model.py lines 255-256 (train_ensemble_models), for one
feature column: `X_train_scaled = self.scaler.fit_transform(X_train);
X_test_scaled = self.scaler.transform(X_test)`. Returns the scaler state
after both calls together with the scaled train and test columns. -/
def comprehensiveScalePhase (xtrain xtest : List ℚ) :
    ScalerParams × List (ℚ × ℚ) × List (ℚ × ℚ) :=
  let ft := scalerFitTransform xtrain
  let tt := scalerTransform ft.1 xtest
  (tt.1, ft.2, tt.2)

/-- scripts/ml/train_model.py lines 169-174 (prepare_features), for one
feature column: `scaler = StandardScaler(); X_scaled =
scaler.fit_transform(X)` — fitted on the FULL column, before main's
train_test_split at lines 389-391. -/
def scriptsScalePhase (x : List ℚ) : ScalerParams × List (ℚ × ℚ) :=
  scalerFitTransform x

/-- Applying a frozen transform returns the fitted parameters unchanged:
`transform` is read-only on the scaler state. -/
theorem scalerTransform_preserves_params (p : ScalerParams) (xs : List ℚ) :
    (scalerTransform p xs).1 = p := rfl

/- ------------------------------------------------------------------ -/
/- Label encoding in the serving collaborator (claim C5).              -/
/- ------------------------------------------------------------------ -/

/-- Index of the first occurrence of a string in a list, `none` when
absent. -/
def idxOf? : List String → String → Option Nat
  | [], _ => none
  | c :: cs, x => if c = x then some 0 else (idxOf? cs x).map (· + 1)

/-- An sklearn LabelEncoder: `classes_` is the list of known categories
fixed at fit time (sorted unique in sklearn; only membership and index
matter here). -/
structure LabelEncoder where
  classes : List String
deriving DecidableEq

/-- `encoder.transform([x])[0]`: the dense code of a known category, or a
ValueError (modelled as `none`) for an unseen one. -/
def LabelEncoder.lookupCode (e : LabelEncoder) (x : String) : Option Nat :=
  idxOf? e.classes x

/-- serve.py lines 129-141: the categorical-encoding step of /predict.
The sport encoder is called with no guard (line 130): an unseen sport
raises ValueError, which escapes to the generic handler at line 217 and
becomes an HTTP 500 (`Except.error`). Each team encoder is wrapped in
try/except ValueError with the fallback `len(classes_) // 2`
(lines 133-141). -/
def predictEncode (sportEnc homeEnc awayEnc : LabelEncoder)
    (sport home away : String) : Except String (Nat × Nat × Nat) :=
  match sportEnc.lookupCode sport with
  | none => Except.error "Prediction error"
  | some s =>
    let h := match homeEnc.lookupCode home with
      | some c => c
      | none => homeEnc.classes.length / 2
    let a := match awayEnc.lookupCode away with
      | some c => c
      | none => awayEnc.classes.length / 2
    Except.ok (s, h, a)

/- ------------------------------------------------------------------ -/
/- Optional XGBoost dependency (claim C6).                             -/
/- ------------------------------------------------------------------ -/

/-- ml-service/train_model.py: the variant names inserted into `results`
by train_ensemble_models, in insertion order — random_forest and
gradient_boosting unconditionally, xgboost only under the HAS_XGBOOST
flag set at lines 43-48. -/
def comprehensiveVariants (hasXGBoost : Bool) : List String :=
  ["random_forest", "gradient_boosting"] ++
    (if hasXGBoost then ["xgboost"] else [])

/-- scripts/ml/train_model.py line 33: the module performs an unconditional
top-level `import xgboost as xgb`; when the library is absent the whole
script dies with ImportError before anything runs. -/
def scriptsModuleLoad (hasXGBoost : Bool) : Except String Unit :=
  if hasXGBoost then Except.ok () else
    Except.error "ImportError: No module named xgboost"

/-- scripts/ml/train_model.py: the variants trained by train_ensemble
(lines 180-250), reachable only if the module load succeeded. -/
def scriptsTrainedVariants (hasXGBoost : Bool) : Except String (List String) :=
  match scriptsModuleLoad hasXGBoost with
  | Except.error e => Except.error e
  | Except.ok _ =>
      Except.ok ["random_forest", "xgboost", "logistic_regression"]

/- ------------------------------------------------------------------ -/
/- Missing-value imputation (claim C7).                                -/
/- ------------------------------------------------------------------ -/

/-- The present (non-NaN) values of one pandas column. -/
def presentVals (col : List (Option ℚ)) : List ℚ := col.filterMap id

/-- `series.fillna(v)`: replace each missing entry by `v`; filling with NaN
(`none`, from an all-missing column) leaves the column unchanged, exactly
as pandas does. -/
def fillnaWith (v : Option ℚ) (col : List (Option ℚ)) : List (Option ℚ) :=
  match v with
  | none => col
  | some m => col.map (fun x => some (x.getD m))

/-- ml-service/train_model.py line 234: `df[col] =
df[col].fillna(df[col].median())` for a numeric-dtype feature column. -/
def fillnaMedian (col : List (Option ℚ)) : List (Option ℚ) :=
  fillnaWith (medianQ (presentVals col)) col

/-- scripts/ml/train_model.py line 166: `X = X.fillna(X.mean())` for one
feature column — the scripts trainer imputes with the column MEAN. -/
def fillnaMean (col : List (Option ℚ)) : List (Option ℚ) :=
  fillnaWith (meanQ (presentVals col)) col

/-- ml-service/train_model.py line 236: `df[col] = df[col].fillna(0)` for a
non-numeric (categorical/flag) feature column. -/
def fillnaZero (col : List (Option ℚ)) : List (Option ℚ) :=
  col.map (fun x => some (x.getD 0))

/-- ml-service/train_model.py lines 230-236: the imputation pass over the
selected feature columns — median fill for numeric dtypes, constant 0 for
the rest; every column is kept. -/
def fillFeatureColumns (isNumericDtype : String → Bool)
    (cols : List (String × List (Option ℚ))) :
    List (String × List (Option ℚ)) :=
  cols.map (fun nc =>
    (nc.1, if isNumericDtype nc.1 then fillnaMedian nc.2 else fillnaZero nc.2))

/-- Sorted insertion grows the length by one. -/
theorem insertQ_length (x : ℚ) (xs : List ℚ) :
    (insertQ x xs).length = xs.length + 1 := by
  induction xs with
  | nil => rfl
  | cons y ys ih =>
    by_cases h : x ≤ y
    · simp [insertQ, if_pos h]
    · simp [insertQ, if_neg h, ih]

/-- Insertion sort preserves length. -/
theorem sortQ_length (xs : List ℚ) : (sortQ xs).length = xs.length := by
  induction xs with
  | nil => rfl
  | cons x ys ih => simp [sortQ, insertQ_length, ih]

/-- The pandas median of a nonempty value list is a value, not NaN. -/
theorem medianQ_isSome (xs : List ℚ) (h : xs ≠ []) :
    ∃ m, medianQ xs = some m := by
  have h0 : ¬ xs.length = 0 := fun hl => h (List.length_eq_zero.mp hl)
  by_cases h1 : xs.length % 2 = 1
  · exact ⟨(sortQ xs).getD (xs.length / 2) 0, by simp [medianQ, h0, h1]⟩
  · exact ⟨((sortQ xs).getD (xs.length / 2 - 1) 0 +
      (sortQ xs).getD (xs.length / 2) 0) / 2, by simp [medianQ, h0, h1]⟩

/-- The pandas mean of a nonempty value list is a value, not NaN. -/
theorem meanQ_isSome (xs : List ℚ) (h : xs ≠ []) :
    ∃ m, meanQ xs = some m := by
  have h0 : ¬ xs.length = 0 := fun hl => h (List.length_eq_zero.mp hl)
  exact ⟨xs.sum / (xs.length : ℚ), by simp [meanQ, h0]⟩

/- ------------------------------------------------------------------ -/
/- Raw records and the insufficient-data guard (claim C3).             -/
/- ------------------------------------------------------------------ -/

/-- One historical prediction row, with the columns selected by the SQL
query in ml-service/train_model.py lines 96-106 (timestamps kept as
strings; the open-ended factors blob as a name/value list). -/
structure RawRecord where
  id : String
  gameId : String
  sport : String
  homeTeam : String
  awayTeam : String
  gameTime : String
  predictedWinner : String
  confidence : ℚ
  predictedSpread : ℚ
  openingSpread : ℚ
  closingSpread : ℚ
  factors : List (String × ℚ)
  actualWinner : String
  actualSpread : ℚ
  wasCorrect : Bool
  spreadCLV : Option ℚ
  beatTheCloseSpread : Option Bool
  madeAt : String
deriving DecidableEq

/-- A concrete record used to instantiate theorems on explicit inputs. -/
def dummyRecord : RawRecord :=
  { id := "p1", gameId := "g1", sport := "NFL", homeTeam := "DAL",
    awayTeam := "NYG", gameTime := "2024-10-06T20:20", predictedWinner := "DAL",
    confidence := 62, predictedSpread := -3, openingSpread := -3,
    closingSpread := -4, factors := [("restAdvantage", 2)],
    actualWinner := "DAL", actualSpread := -6, wasCorrect := true,
    spreadCLV := some 1, beatTheCloseSpread := some true,
    madeAt := "2024-10-01T09:00" }

/-- Observable outcome of one pipeline invocation: whether it aborted
early, which files it wrote to the model registry directory, and which
model variants it trained. -/
structure PipelineResult where
  aborted : Bool
  registryWrites : List String
  modelsTrained : List String
deriving DecidableEq

/-- ml-service/train_model.py lines 396-404 (ComprehensiveMLPipeline.run):
the guard `if df.empty or len(df) < 50: ... return` runs right after
loading, before feature engineering, before any model is trained and
before save_production_model; the rest of the run (steps 2-6) is the
continuation `proceed`. An empty frame has length < 50, so the guard is
the pure length test. -/
def comprehensiveRun (proceed : List RawRecord → PipelineResult)
    (records : List RawRecord) : PipelineResult :=
  if records.length < 50 then ⟨true, [], []⟩ else proceed records

/-- scripts/ml/train_model.py lines 381-383 (main): `if len(df) <
args.min_games: ... sys.exit(1)` — before prepare_features, train_ensemble
and save_models; the rest of main is the continuation `proceed`. -/
def scriptsMain (minGames : Nat) (proceed : List RawRecord → PipelineResult)
    (records : List RawRecord) : PipelineResult :=
  if records.length < minGames then ⟨true, [], []⟩ else proceed records

/- ------------------------------------------------------------------ -/
/- Metric reports and best-model selection (claim C4).                 -/
/- ------------------------------------------------------------------ -/

/-- The metric dictionary computed for each trained variant
(ml-service/train_model.py lines 276-283 and analogous entries). -/
structure Metrics where
  accuracy : ℚ
  precisionScore : ℚ
  recallScore : ℚ
  f1 : ℚ
  rocAuc : ℚ
deriving DecidableEq, Repr

/-- The selection loop of evaluate_and_select_best
(ml-service/train_model.py lines 335-349): iterate over the models dict in
insertion order, starting from `best_model_name = None`, `best_f1 = 0`,
replacing the best only on a strictly larger F1. -/
def selectLoop : Option String → ℚ → List (String × Metrics) →
    Option String × ℚ
  | best, bestF1, [] => (best, bestF1)
  | best, bestF1, m :: rest =>
    if m.2.f1 > bestF1 then selectLoop (some m.1) m.2.f1 rest
    else selectLoop best bestF1 rest

/-- evaluate_and_select_best: the variant name returned (`None` when no
variant exceeds the initial best_f1 = 0). -/
def selectBest (models : List (String × Metrics)) : Option String :=
  (selectLoop none 0 models).1

/-- If no candidate exceeds the running best F1, the selection loop leaves
the accumulator untouched. -/
theorem selectLoop_all_le (ms : List (String × Metrics)) :
    ∀ b q, (∀ p ∈ ms, p.2.f1 ≤ q) → selectLoop b q ms = (b, q) := by
  induction ms with
  | nil => intro b q _; rfl
  | cons m rest ih =>
    intro b q h
    have hm : ¬ (m.2.f1 > q) :=
      not_lt.mpr (h m (List.mem_cons_self m rest))
    simp only [selectLoop, if_neg hm]
    exact ih b q (fun p hp => h p (List.mem_cons_of_mem m hp))

/-- If some candidate strictly exceeds the running best F1, the loop
returns the first candidate attaining the maximal F1 among those seen:
the list splits as pre ++ chosen :: post with every earlier candidate
strictly below the chosen F1 and every later one at most it. -/
theorem selectLoop_finds (ms : List (String × Metrics)) :
    ∀ b q, (∃ p ∈ ms, q < p.2.f1) →
    ∃ n met pre post, ms = pre ++ (n, met) :: post ∧
      (selectLoop b q ms).1 = some n ∧ q < met.f1 ∧
      (∀ p ∈ pre, p.2.f1 < met.f1) ∧ (∀ p ∈ post, p.2.f1 ≤ met.f1) := by
  induction ms with
  | nil =>
    intro b q h
    obtain ⟨p, hp, _⟩ := h
    exact absurd hp (List.not_mem_nil p)
  | cons m rest ih =>
    intro b q h
    by_cases hm : m.2.f1 > q
    · by_cases hrest : ∃ p ∈ rest, m.2.f1 < p.2.f1
      · obtain ⟨n, met, pre, post, hms, hsel, hq, hpre, hpost⟩ :=
          ih (some m.1) m.2.f1 hrest
        refine ⟨n, met, m :: pre, post, by rw [hms]; rfl, ?_,
          lt_trans hm hq, ?_, hpost⟩
        · simp only [selectLoop, if_pos hm]
          exact hsel
        · intro p hp
          rcases List.mem_cons.mp hp with h1 | h2
          · rw [h1]; exact hq
          · exact hpre p h2
      · push_neg at hrest
        refine ⟨m.1, m.2, [], rest, by simp, ?_, hm, by simp, hrest⟩
        simp only [selectLoop, if_pos hm]
        rw [selectLoop_all_le rest (some m.1) m.2.f1 hrest]
    · have hle : m.2.f1 ≤ q := not_lt.mp hm
      obtain ⟨p0, hp0, hq0⟩ := h
      have hp0r : p0 ∈ rest := by
        rcases List.mem_cons.mp hp0 with h1 | h2
        · rw [h1] at hq0; exact absurd hq0 (not_lt.mpr hle)
        · exact h2
      obtain ⟨n, met, pre, post, hms, hsel, hq, hpre, hpost⟩ :=
        ih b q ⟨p0, hp0r, hq0⟩
      refine ⟨n, met, m :: pre, post, by rw [hms]; rfl, ?_, hq, ?_, hpost⟩
      · simp only [selectLoop, if_neg hm]
        exact hsel
      · intro p hp
        rcases List.mem_cons.mp hp with h1 | h2
        · rw [h1]; exact lt_of_le_of_lt hle hq
        · exact hpre p h2

/- ------------------------------------------------------------------ -/
/- Model registry persistence (claim C8).                              -/
/- ------------------------------------------------------------------ -/

/-- The distinct file paths save_models writes under MODEL_DIR
(scripts/ml/train_model.py lines 311-355). The four filename patterns
`{sport}_{model_name}_{version}.joblib`, `{sport}_scaler_{version}.joblib`,
`{sport}_metadata_{version}.json` and `{sport}_latest.json` are encoded as
constructors (the trained model names random_forest / xgboost /
logistic_regression never collide with the literal components scaler,
metadata, latest). -/
inductive FileKey where
  | modelFile (sport name version : String)
  | scalerFile (sport version : String)
  | metadataFile (sport version : String)
  | latestFile (sport : String)
deriving DecidableEq

/-- The metadata JSON document written by save_models (lines 333-344):
sport, model_version, trained_at, feature_names, metrics, model_files,
scaler_file. -/
structure SaveMetadata where
  sport : String
  modelVersion : String
  trainedAt : String
  featureNames : List String
  metricReports : List (String × Metrics)
  modelFiles : List (String × String)
  scalerFileName : String
deriving DecidableEq

/-- Contents of one registry file: a serialized model, a serialized
scaler, or a metadata JSON document. -/
inductive FileData where
  | joblibModel (name version : String)
  | joblibScaler (version : String)
  | jsonMeta (m : SaveMetadata)
deriving DecidableEq

/-- The registry directory as write history: each write conses the
(path, contents) pair, lookup returns the most recent write to a path. -/
def fsLookup : List (FileKey × FileData) → FileKey → Option FileData
  | [], _ => none
  | (k, d) :: rest, k2 => if k = k2 then some d else fsLookup rest k2

/-- scripts/ml/train_model.py lines 318-319: `model_version =
f"v{timestamp}"` where timestamp is wall-clock time formatted at one-second
resolution (passed here as an explicit argument). -/
def mkVersion (timestamp : String) : String := "v" ++ timestamp

/-- The metadata document assembled at lines 333-344. -/
def mkSaveMetadata (sport version trainedAt : String)
    (featureNames : List String) (metrics : List (String × Metrics))
    (modelNames : List String) : SaveMetadata :=
  { sport := sport, modelVersion := version, trainedAt := trainedAt,
    featureNames := featureNames, metricReports := metrics,
    modelFiles := modelNames.map
      (fun n => (n, sport ++ "_" ++ n ++ "_" ++ version ++ ".joblib")),
    scalerFileName := sport ++ "_scaler_" ++ version ++ ".joblib" }

/-- Lines 322-325: one joblib dump per trained model. -/
def writeModels (sport version : String) (modelNames : List String)
    (fs : List (FileKey × FileData)) : List (FileKey × FileData) :=
  modelNames.foldl
    (fun acc n =>
      (FileKey.modelFile sport n version, FileData.joblibModel n version)
        :: acc)
    fs

/-- save_models (lines 311-357): writes the model files, then the scaler,
then the versioned metadata document, then overwrites the
`{sport}_latest.json` alias with the same document; returns the new state
and the version id. No write deletes an existing path. -/
def saveModels (fs : List (FileKey × FileData)) (modelNames : List String)
    (featureNames : List String) (metrics : List (String × Metrics))
    (sport timestamp trainedAt : String) :
    List (FileKey × FileData) × String :=
  ((FileKey.latestFile sport,
      FileData.jsonMeta (mkSaveMetadata sport (mkVersion timestamp)
        trainedAt featureNames metrics modelNames)) ::
    (FileKey.metadataFile sport (mkVersion timestamp),
      FileData.jsonMeta (mkSaveMetadata sport (mkVersion timestamp)
        trainedAt featureNames metrics modelNames)) ::
    (FileKey.scalerFile sport (mkVersion timestamp),
      FileData.joblibScaler (mkVersion timestamp)) ::
    writeModels sport (mkVersion timestamp) modelNames fs,
   mkVersion timestamp)

/-- Looking up a path other than the one just written skips the write. -/
theorem fsLookup_cons_ne (kw : FileKey) (d : FileData)
    (rest : List (FileKey × FileData)) (k : FileKey) (h : kw ≠ k) :
    fsLookup ((kw, d) :: rest) k = fsLookup rest k := by
  show (if kw = k then some d else fsLookup rest k) = fsLookup rest k
  rw [if_neg h]

/-- Looking up the path just written returns its contents. -/
theorem fsLookup_cons_self (kw : FileKey) (d : FileData)
    (rest : List (FileKey × FileData)) :
    fsLookup ((kw, d) :: rest) kw = some d := by
  show (if kw = kw then some d else fsLookup rest kw) = some d
  rw [if_pos rfl]

/-- Lookups for a non-model path pass over the model-file writes
untouched. -/
theorem fsLookup_writeModels (sport version : String)
    (names : List String) (fs : List (FileKey × FileData)) (k : FileKey)
    (hk : ∀ sp n v, k ≠ FileKey.modelFile sp n v) :
    fsLookup (writeModels sport version names fs) k = fsLookup fs k := by
  induction names generalizing fs with
  | nil => rfl
  | cons n rest ih =>
    show fsLookup (writeModels sport version rest
      ((FileKey.modelFile sport n version,
        FileData.joblibModel n version) :: fs)) k = fsLookup fs k
    rw [ih]
    show (if FileKey.modelFile sport n version = k then
      some (FileData.joblibModel n version) else fsLookup fs k) =
      fsLookup fs k
    rw [if_neg (fun h => hk sport n version h.symm)]

/-- A save leaves every path outside its own write set unchanged. -/
theorem fsLookup_after_save_other (fs : List (FileKey × FileData))
    (names fn : List String) (ms : List (String × Metrics))
    (sport t ta : String) (k : FileKey)
    (h1 : k ≠ FileKey.latestFile sport)
    (h2 : k ≠ FileKey.metadataFile sport (mkVersion t))
    (h3 : k ≠ FileKey.scalerFile sport (mkVersion t))
    (h4 : ∀ sp n v, k ≠ FileKey.modelFile sp n v) :
    fsLookup (saveModels fs names fn ms sport t ta).1 k = fsLookup fs k := by
  simp only [saveModels]
  rw [fsLookup_cons_ne _ _ _ _ (Ne.symm h1),
      fsLookup_cons_ne _ _ _ _ (Ne.symm h2),
      fsLookup_cons_ne _ _ _ _ (Ne.symm h3),
      fsLookup_writeModels sport (mkVersion t) names fs k h4]

/-- After a save, the latest alias holds that save's metadata document. -/
theorem fsLookup_after_save_latest (fs : List (FileKey × FileData))
    (names fn : List String) (ms : List (String × Metrics))
    (sport t ta : String) :
    fsLookup (saveModels fs names fn ms sport t ta).1
      (FileKey.latestFile sport) =
      some (FileData.jsonMeta (mkSaveMetadata sport (mkVersion t) ta
        fn ms names)) := by
  simp only [saveModels]
  exact fsLookup_cons_self _ _ _

/-- After a save, the versioned metadata path holds that save's metadata
document. -/
theorem fsLookup_after_save_metadata (fs : List (FileKey × FileData))
    (names fn : List String) (ms : List (String × Metrics))
    (sport t ta : String) :
    fsLookup (saveModels fs names fn ms sport t ta).1
      (FileKey.metadataFile sport (mkVersion t)) =
      some (FileData.jsonMeta (mkSaveMetadata sport (mkVersion t) ta
        fn ms names)) := by
  simp only [saveModels]
  rw [fsLookup_cons_ne _ _ _ _ (fun h => FileKey.noConfusion h)]
  exact fsLookup_cons_self _ _ _

/-- After a save, the versioned scaler path holds that save's serialized
scaler. -/
theorem fsLookup_after_save_scaler (fs : List (FileKey × FileData))
    (names fn : List String) (ms : List (String × Metrics))
    (sport t ta : String) :
    fsLookup (saveModels fs names fn ms sport t ta).1
      (FileKey.scalerFile sport (mkVersion t)) =
      some (FileData.joblibScaler (mkVersion t)) := by
  simp only [saveModels]
  rw [fsLookup_cons_ne _ _ _ _ (fun h => FileKey.noConfusion h),
      fsLookup_cons_ne _ _ _ _ (fun h => FileKey.noConfusion h)]
  exact fsLookup_cons_self _ _ _

/- ================================================================== -/
/- Theorems.                                                           -/
/- ================================================================== -/

/-- Claim C3: with fewer than the configured minimum rows (50 in the
comprehensive pipeline, the --min-games argument in the scripts trainer),
both pipelines abort before any model is trained and write nothing to the
model registry directory. -/
theorem c3_insufficient_data_aborts
    (proceed : List RawRecord → PipelineResult)
    (records : List RawRecord) (minGames : Nat)
    (h50 : records.length < 50) (hmin : records.length < minGames) :
    comprehensiveRun proceed records = ⟨true, [], []⟩ ∧
    (comprehensiveRun proceed records).registryWrites = [] ∧
    (comprehensiveRun proceed records).modelsTrained = [] ∧
    scriptsMain minGames proceed records = ⟨true, [], []⟩ := by
  unfold comprehensiveRun scriptsMain
  rw [if_pos h50, if_pos hmin]
  exact ⟨rfl, rfl, rfl, rfl⟩

/-- Witness for c3_insufficient_data_aborts: a 40-record batch (below the
50 minimum and below --min-games 100) aborts both pipelines with no
registry writes and no trained models, whatever the rest of the run would
have done. -/
theorem c3_insufficient_data_aborts_witness :
    comprehensiveRun (fun _ => ⟨false, ["nfl_model.pkl"], ["random_forest"]⟩)
      (List.replicate 40 dummyRecord) = ⟨true, [], []⟩ ∧
    (comprehensiveRun
      (fun _ => ⟨false, ["nfl_model.pkl"], ["random_forest"]⟩)
      (List.replicate 40 dummyRecord)).registryWrites = [] ∧
    (comprehensiveRun
      (fun _ => ⟨false, ["nfl_model.pkl"], ["random_forest"]⟩)
      (List.replicate 40 dummyRecord)).modelsTrained = [] ∧
    scriptsMain 100 (fun _ => ⟨false, ["nfl_model.pkl"], ["random_forest"]⟩)
      (List.replicate 40 dummyRecord) = ⟨true, [], []⟩ :=
  c3_insufficient_data_aborts
    (fun _ => ⟨false, ["nfl_model.pkl"], ["random_forest"]⟩)
    (List.replicate 40 dummyRecord) 100
    (by simp) (by simp)

/-- Metric report used in the C4 counterexample: F1 one half, low
ROC-AUC. -/
def cexMetricsRF : Metrics := ⟨1/2, 1/2, 1/2, 1/2, 1/10⟩

/-- Metric report used in the C4 counterexample: the same F1 one half,
high ROC-AUC. -/
def cexMetricsGB : Metrics := ⟨1/2, 1/2, 1/2, 1/2, 9/10⟩

/-- Claim C4, counterexample: two variants tie exactly on F1 while the
second has the strictly higher ROC-AUC; the selection loop keeps the
first-trained variant (random_forest), not the higher-AUC one
(gradient_boosting) — ROC-AUC is never consulted. -/
theorem c4_roc_auc_tiebreak_counterexample :
    selectBest
      [("random_forest", cexMetricsRF), ("gradient_boosting", cexMetricsGB)] =
      some "random_forest" ∧
    cexMetricsRF.f1 = cexMetricsGB.f1 ∧
    cexMetricsRF.rocAuc < cexMetricsGB.rocAuc ∧
    some "random_forest" ≠ some "gradient_boosting" := by
  refine ⟨?_, rfl, by norm_num [cexMetricsRF, cexMetricsGB], by decide⟩
  have h1 : (0 : ℚ) < cexMetricsRF.f1 := by norm_num [cexMetricsRF]
  have h2 : ¬ (cexMetricsRF.f1 < cexMetricsGB.f1) := by
    norm_num [cexMetricsRF, cexMetricsGB]
  simp only [selectBest, selectLoop, gt_iff_lt, if_pos h1, if_neg h2]

/-- Claim C4, amended: over candidates at least one of which has positive
F1, evaluate_and_select_best picks a candidate whose F1 is maximal, and
among F1-maximal candidates the first in the trainer's deterministic
insertion order (every strictly earlier candidate has strictly smaller
F1); ROC-AUC plays no role. -/
theorem c4_selectBest_first_max (models : List (String × Metrics))
    (h : ∃ p ∈ models, 0 < p.2.f1) :
    ∃ n met pre post, selectBest models = some n ∧
      models = pre ++ (n, met) :: post ∧
      (∀ p ∈ models, p.2.f1 ≤ met.f1) ∧
      (∀ p ∈ pre, p.2.f1 < met.f1) := by
  obtain ⟨n, met, pre, post, hms, hsel, _, hpre, hpost⟩ :=
    selectLoop_finds models none 0 h
  refine ⟨n, met, pre, post, hsel, hms, ?_, hpre⟩
  intro p hp
  rw [hms] at hp
  rcases List.mem_append.mp hp with h1 | h2
  · exact le_of_lt (hpre p h1)
  · rcases List.mem_cons.mp h2 with h3 | h4
    · rw [h3]
    · exact hpost p h4

/-- First metric report of the concrete evaluation used in the C4
witness. -/
def demoMetricsRF : Metrics := ⟨3/5, 3/5, 3/5, 3/5, 3/5⟩

/-- Second metric report of the concrete evaluation used in the C4
witness. -/
def demoMetricsGB : Metrics := ⟨2/5, 2/5, 2/5, 2/5, 2/5⟩

/-- The concrete candidate list used in the C4 witness. -/
def demoModels : List (String × Metrics) :=
  [("random_forest", demoMetricsRF), ("gradient_boosting", demoMetricsGB)]

/-- Witness for c4_selectBest_first_max on a concrete two-candidate
evaluation with distinct F1 scores. -/
theorem c4_selectBest_first_max_witness :
    ∃ n met pre post,
      selectBest demoModels = some n ∧
      demoModels = pre ++ (n, met) :: post ∧
      (∀ p ∈ demoModels, p.2.f1 ≤ met.f1) ∧
      (∀ p ∈ pre, p.2.f1 < met.f1) :=
  c4_selectBest_first_max demoModels
    ⟨("random_forest", demoMetricsRF), by simp [demoModels],
      by norm_num [demoMetricsRF]⟩

/-- Claim C1: evaluating the two scaling flows at the failing input.
The scripts pipeline (prepare_features) fits the scaler on the full batch
[0, 10] before the split, so its fitted mean 5 incorporates the test row —
it differs from the mean fit on either possible training partition ([0] or
[10]). The comprehensive ml-service pipeline at the split train = [0],
test = [10] fits on the training partition only, and applying the frozen
transform to the test column leaves the fitted parameters unchanged. -/
theorem c1_scripts_scaler_fit_on_full_batch :
    (scriptsScalePhase [0, 10]).1 = fitScaler [0, 10] ∧
    (fitScaler [0, 10]).mean = 5 ∧
    (fitScaler [0]).mean = 0 ∧
    (fitScaler [10]).mean = 10 ∧
    (5 : ℚ) ≠ 0 ∧ (5 : ℚ) ≠ 10 ∧
    (comprehensiveScalePhase [0] [10]).1 = fitScaler [0] ∧
    (∀ p xs, (scalerTransform p xs).1 = p) := by
  refine ⟨rfl, ?_, ?_, ?_, by norm_num, by norm_num, rfl, fun p xs => rfl⟩
  · norm_num [fitScaler, colMean]
  · norm_num [fitScaler, colMean]
  · norm_num [fitScaler, colMean]

/-- Claim C5, counterexample: a request whose sport identifier was not among
the fitted categories makes the encoding step of /predict fail (ValueError
surfaced as HTTP 500), even though both teams are known — contradicting
"team or sport identifier ... encoding does not fail". -/
theorem c5_unseen_sport_counterexample :
    predictEncode ⟨["NFL"]⟩ ⟨["DAL", "NYG"]⟩ ⟨["DAL", "NYG"]⟩
      "MLB" "DAL" "NYG" = Except.error "Prediction error" := by
  rfl

/-- Claim C5, amended: for a known sport, an unseen team identifier does not
make encoding fail — each team encoder falls back to the midpoint code
count(known categories) / 2; only the sport encoder lacks the fallback. -/
theorem c5_team_fallback (se he ae : LabelEncoder)
    (sport home away : String) (s : Nat)
    (hs : se.lookupCode sport = some s)
    (hh : he.lookupCode home = none)
    (ha : ae.lookupCode away = none) :
    predictEncode se he ae sport home away =
      Except.ok (s, he.classes.length / 2, ae.classes.length / 2) := by
  simp [predictEncode, hs, hh, ha]

/-- Witness for c5_team_fallback: sport "NFL" known, teams "ZZZ" and "QQQ"
unseen; both fall back to the midpoint code 1 (= 3 / 2). -/
theorem c5_team_fallback_witness :
    predictEncode ⟨["NFL"]⟩ ⟨["ATL", "DAL", "NYG"]⟩ ⟨["ATL", "DAL", "NYG"]⟩
      "NFL" "ZZZ" "QQQ" = Except.ok (0, 1, 1) :=
  c5_team_fallback ⟨["NFL"]⟩ ⟨["ATL", "DAL", "NYG"]⟩ ⟨["ATL", "DAL", "NYG"]⟩
    "NFL" "ZZZ" "QQQ" 0 (by decide) (by decide) (by decide)

/-- Claim C6, counterexample: in the standalone scripts trainer, an
unavailable XGBoost is a hard failure — the unconditional top-level import
aborts the module, no variant trains at all, contradicting "all other
variants still train and the run proceeds". -/
theorem c6_scripts_xgboost_hard_failure :
    scriptsTrainedVariants false =
      Except.error "ImportError: No module named xgboost" ∧
    (∀ vs, scriptsTrainedVariants false ≠ Except.ok vs) := by
  constructor
  · rfl
  · intro vs h
    simp [scriptsTrainedVariants, scriptsModuleLoad] at h

/-- Claim C6, amended: in the comprehensive ml-service pipeline an
unavailable XGBoost only omits the xgboost variant — random_forest and
gradient_boosting still train (in the same order) and the run proceeds;
the standalone scripts trainer instead fails entirely without XGBoost. -/
theorem c6_comprehensive_xgboost_optional :
    comprehensiveVariants false = ["random_forest", "gradient_boosting"] ∧
    comprehensiveVariants true =
      ["random_forest", "gradient_boosting", "xgboost"] ∧
    "xgboost" ∉ comprehensiveVariants false ∧
    ("random_forest" ∈ comprehensiveVariants false ∧
      "gradient_boosting" ∈ comprehensiveVariants false) ∧
    scriptsTrainedVariants true =
      Except.ok ["random_forest", "xgboost", "logistic_regression"] := by
  refine ⟨rfl, rfl, ?_, ?_, rfl⟩
  · decide
  · exact ⟨by decide, by decide⟩

/-- Claim C2, counterexample: the legacy training-pipeline feature does not
evaluate to 0 when the opening spread is 0 — with opening spread 0 and
closing spread 3 it evaluates to 3. -/
theorem c2_legacy_movement_pct_counterexample :
    legacySpreadMovementPct 0 3 = 3 ∧ (3 : ℚ) ≠ 0 := by
  constructor
  · norm_num [legacySpreadMovementPct]
  · norm_num

/-- Claim C2, amended: when the opening line is 0, the serving collaborator's
movement-as-fraction features evaluate to 0, while the training pipeline's
legacy feature engineering replaces the zero divisor with 1 and so evaluates
to the raw movement (closing minus opening); in both, the divisor is never
zero, so the computation is total (no NaN, no exception). -/
theorem c2_movement_pct_zero_opening (c : ℚ) :
    servingSpreadMovementPct 0 c = 0 ∧
    servingTotalMovementPct 0 c = 0 ∧
    legacySpreadMovementPct 0 c = c ∧
    legacyTotalMovementPct 0 c = c ∧
    (∀ o : ℚ, (if |o| = 0 then (1 : ℚ) else |o|) ≠ 0) ∧
    (∀ o : ℚ, (if o = 0 then (1 : ℚ) else o) ≠ 0) := by
  refine ⟨by norm_num [servingSpreadMovementPct],
          by norm_num [servingTotalMovementPct],
          by norm_num [legacySpreadMovementPct],
          by norm_num [legacyTotalMovementPct], ?_, ?_⟩
  · intro o
    by_cases h : |o| = 0
    · simp [h]
    · simp [h]
  · intro o
    by_cases h : o = 0
    · simp [h]
    · simp [h]

/-- Claim C9: the ensemble blend uses the fixed convex weights 0.35 / 0.40 /
0.25, they sum to 1, the boosted-tree (xgboost) weight is the largest, the
blended probability is the weighted sum of the three variant probabilities,
and the blended classification is positive exactly when the blended
probability reaches the 0.5 cutoff. -/
theorem c9_ensemble_blend :
    wRandomForest = 35 / 100 ∧ wXGBoost = 40 / 100 ∧ wLogistic = 25 / 100 ∧
    wRandomForest + wXGBoost + wLogistic = 1 ∧
    wRandomForest < wXGBoost ∧ wLogistic < wXGBoost ∧
    0 < wRandomForest ∧ 0 < wLogistic ∧
    (∀ rf xgb lr : ℚ,
      ensembleProba rf xgb lr =
        35 / 100 * rf + 40 / 100 * xgb + 25 / 100 * lr) ∧
    (∀ rf xgb lr : ℚ,
      ensemblePred rf xgb lr = true ↔ 1 / 2 ≤ ensembleProba rf xgb lr) := by
  refine ⟨rfl, rfl, rfl, by norm_num [wRandomForest, wXGBoost, wLogistic],
          by norm_num [wRandomForest, wXGBoost],
          by norm_num [wLogistic, wXGBoost],
          by norm_num [wRandomForest], by norm_num [wLogistic], ?_, ?_⟩
  · intro rf xgb lr
    simp [ensembleProba, wRandomForest, wXGBoost, wLogistic]
  · intro rf xgb lr
    simp [ensemblePred, ge_iff_le]

/-- Claim C10: for a model probability p in [0, 1], the /predict confidence
field equals max(p, 1 - p) * 100 and lies in the closed interval [50, 100]. -/
theorem c10_predict_confidence_bounds (p : ℚ) (h0 : 0 ≤ p) (h1 : p ≤ 1) :
    predictConfidence p = max p (1 - p) * 100 ∧
    50 ≤ predictConfidence p ∧ predictConfidence p ≤ 100 := by
  refine ⟨rfl, ?_, ?_⟩
  · have hm : (1 : ℚ) / 2 ≤ max p (1 - p) := by
      rcases le_total p (1 / 2) with h | h
      · exact le_trans (by linarith) (le_max_right p (1 - p))
      · exact le_trans h (le_max_left p (1 - p))
    unfold predictConfidence
    nlinarith [hm]
  · have hm : max p (1 - p) ≤ 1 := max_le h1 (by linarith)
    unfold predictConfidence
    nlinarith [hm]

/-- Witness for c10_predict_confidence_bounds at p = 3/10: the confidence is
70, inside [50, 100]. -/
theorem c10_predict_confidence_bounds_witness :
    predictConfidence (3 / 10) = max (3 / 10 : ℚ) (1 - 3 / 10) * 100 ∧
    50 ≤ predictConfidence (3 / 10) ∧ predictConfidence (3 / 10) ≤ 100 :=
  c10_predict_confidence_bounds (3 / 10) (by norm_num) (by norm_num)

/-- The column used in the C7 counterexample: values 1, 2, 10 and one
missing entry. Its median is 2 but its mean is 13/3. -/
def c7cexCol : List (Option ℚ) := [some 1, some 2, some 10, none]

/-- Claim C7, counterexample: the scripts trainer imputes the missing entry
of the column [1, 2, 10, NaN] with the column MEAN 13/3, not the median 2
required by the claim. -/
theorem c7_scripts_mean_imputation_counterexample :
    fillnaMean c7cexCol = [some 1, some 2, some 10, some (13/3)] ∧
    fillnaMedian c7cexCol = [some 1, some 2, some 10, some 2] ∧
    (13/3 : ℚ) ≠ 2 := by
  refine ⟨?_, ?_, by norm_num⟩
  · have hm : meanQ (presentVals c7cexCol) = some (13/3) := by
      have hpv : presentVals c7cexCol = [1, 2, 10] := rfl
      rw [hpv]
      norm_num [meanQ]
    show fillnaWith (meanQ (presentVals c7cexCol)) c7cexCol = _
    rw [hm]
    rfl
  · have hm : medianQ (presentVals c7cexCol) = some 2 := by
      have hpv : presentVals c7cexCol = [1, 2, 10] := rfl
      rw [hpv]
      norm_num [medianQ, sortQ, insertQ]
    show fillnaWith (medianQ (presentVals c7cexCol)) c7cexCol = _
    rw [hm]
    rfl

/-- Claim C7, amended: in the comprehensive ml-service pipeline, a feature
column with at least one present value is imputed entry-by-entry — numeric
dtypes with the column median over the batch, non-numeric (categorical or
flag) dtypes with the constant 0 — and the imputation pass keeps every
selected column and every row (nothing is dropped for missingness); the
standalone scripts trainer instead imputes every column with the column
MEAN over the batch. -/
theorem c7_imputation (isNumericDtype : String → Bool)
    (cols : List (String × List (Option ℚ))) (col : List (Option ℚ))
    (hp : presentVals col ≠ []) :
    (fillFeatureColumns isNumericDtype cols).map Prod.fst =
      cols.map Prod.fst ∧
    (∃ m, medianQ (presentVals col) = some m ∧
      fillnaMedian col = col.map (fun x => some (x.getD m)) ∧
      (fillnaMedian col).length = col.length ∧
      ∀ q ∈ fillnaMedian col, q.isSome) ∧
    (fillnaZero col = col.map (fun x => some (x.getD 0)) ∧
      (fillnaZero col).length = col.length) ∧
    (∃ m, meanQ (presentVals col) = some m ∧
      fillnaMean col = col.map (fun x => some (x.getD m))) := by
  refine ⟨?_, ?_, ⟨rfl, by simp [fillnaZero]⟩, ?_⟩
  · simp [fillFeatureColumns]
  · obtain ⟨m, hm⟩ := medianQ_isSome (presentVals col) hp
    refine ⟨m, hm, ?_, ?_, ?_⟩
    · simp [fillnaMedian, hm, fillnaWith]
    · simp [fillnaMedian, hm, fillnaWith]
    · intro q hq
      simp only [fillnaMedian, hm, fillnaWith, List.mem_map] at hq
      obtain ⟨x, _, hx⟩ := hq
      rw [← hx]
      rfl
  · obtain ⟨m, hm⟩ := meanQ_isSome (presentVals col) hp
    exact ⟨m, hm, by simp [fillnaMean, hm, fillnaWith]⟩

/-- Witness for c7_imputation on a concrete column with one missing value
and a concrete two-column frame. -/
theorem c7_imputation_witness :
    (fillFeatureColumns (fun _ => true)
        [("confidence", [some 60, none]), ("homeATS", [none, some 1])]).map
        Prod.fst =
      [("confidence", [some 60, none]),
        ("homeATS", [none, some 1])].map Prod.fst ∧
    (∃ m, medianQ (presentVals [some 60, none]) = some m ∧
      fillnaMedian [some 60, none] =
        [some 60, none].map (fun x => some (x.getD m)) ∧
      (fillnaMedian [some 60, none]).length =
        ([some 60, none] : List (Option ℚ)).length ∧
      ∀ q ∈ fillnaMedian [some 60, none], q.isSome) ∧
    (fillnaZero [some 60, none] =
        [some 60, none].map (fun x => some (x.getD 0)) ∧
      (fillnaZero [some 60, none]).length =
        ([some 60, none] : List (Option ℚ)).length) ∧
    (∃ m, meanQ (presentVals [some 60, none]) = some m ∧
      fillnaMean [some 60, none] =
        [some 60, none].map (fun x => some (x.getD m))) :=
  c7_imputation (fun _ => true)
    [("confidence", [some 60, none]), ("homeATS", [none, some 1])]
    [some 60, none]
    (by
      have hpv : presentVals [some 60, none] = [60] := rfl
      rw [hpv]
      exact List.cons_ne_nil 60 [])

/-- Claim C8, counterexample: two successive saves within the same
wall-clock second share the version id, so the second save silently
overwrites the first — loading the first save's explicit version id
afterward returns the SECOND save's metadata, not the first's. -/
theorem c8_same_second_collision :
    fsLookup
      (saveModels
        (saveModels [] ["random_forest"] ["confidence"]
          [("random_forest", demoMetricsRF)] "NFL" "20250101_120000"
          "2025-01-01T12:00:00.1").1
        ["random_forest"] ["confidence"]
        [("random_forest", demoMetricsGB)] "NFL" "20250101_120000"
        "2025-01-01T12:00:00.9").1
      (FileKey.metadataFile "NFL" (mkVersion "20250101_120000")) =
      some (FileData.jsonMeta (mkSaveMetadata "NFL"
        (mkVersion "20250101_120000") "2025-01-01T12:00:00.9"
        ["confidence"] [("random_forest", demoMetricsGB)]
        ["random_forest"])) ∧
    FileData.jsonMeta (mkSaveMetadata "NFL" (mkVersion "20250101_120000")
        "2025-01-01T12:00:00.9" ["confidence"]
        [("random_forest", demoMetricsGB)] ["random_forest"]) ≠
      FileData.jsonMeta (mkSaveMetadata "NFL" (mkVersion "20250101_120000")
        "2025-01-01T12:00:00.1" ["confidence"]
        [("random_forest", demoMetricsRF)] ["random_forest"]) := by
  constructor
  · rfl
  · intro h
    simp [mkSaveMetadata] at h

/-- Claim C8, amended: for two successive saves whose version ids differ
(wall-clock timestamps at distinct seconds), the latest alias afterward
holds the second save's metadata document, while the first save's
versioned metadata and scaler files are still present with their original
contents — saving never deletes prior versions. -/
theorem c8_registry_two_saves (fs : List (FileKey × FileData))
    (names1 names2 fn1 fn2 : List String)
    (ms1 ms2 : List (String × Metrics)) (sport t1 t2 ta1 ta2 : String)
    (hv : mkVersion t1 ≠ mkVersion t2) :
    fsLookup
      (saveModels (saveModels fs names1 fn1 ms1 sport t1 ta1).1
        names2 fn2 ms2 sport t2 ta2).1
      (FileKey.latestFile sport) =
      some (FileData.jsonMeta (mkSaveMetadata sport (mkVersion t2) ta2
        fn2 ms2 names2)) ∧
    fsLookup
      (saveModels (saveModels fs names1 fn1 ms1 sport t1 ta1).1
        names2 fn2 ms2 sport t2 ta2).1
      (FileKey.metadataFile sport (mkVersion t1)) =
      some (FileData.jsonMeta (mkSaveMetadata sport (mkVersion t1) ta1
        fn1 ms1 names1)) ∧
    fsLookup
      (saveModels (saveModels fs names1 fn1 ms1 sport t1 ta1).1
        names2 fn2 ms2 sport t2 ta2).1
      (FileKey.scalerFile sport (mkVersion t1)) =
      some (FileData.joblibScaler (mkVersion t1)) := by
  refine ⟨fsLookup_after_save_latest _ _ _ _ _ _ _, ?_, ?_⟩
  · rw [fsLookup_after_save_other _ names2 fn2 ms2 sport t2 ta2 _
        (fun h => FileKey.noConfusion h)
        (fun h => by
          rw [FileKey.metadataFile.injEq] at h
          exact hv h.2)
        (fun h => FileKey.noConfusion h)
        (fun sp n v h => FileKey.noConfusion h)]
    exact fsLookup_after_save_metadata _ _ _ _ _ _ _
  · rw [fsLookup_after_save_other _ names2 fn2 ms2 sport t2 ta2 _
        (fun h => FileKey.noConfusion h)
        (fun h => FileKey.noConfusion h)
        (fun h => by
          rw [FileKey.scalerFile.injEq] at h
          exact hv h.2)
        (fun sp n v h => FileKey.noConfusion h)]
    exact fsLookup_after_save_scaler _ _ _ _ _ _ _

/-- Witness for c8_registry_two_saves: two concrete saves one second
apart; latest then holds the second metadata document and the first
version's metadata and scaler are still loadable. -/
theorem c8_registry_two_saves_witness :
    fsLookup
      (saveModels (saveModels [] ["random_forest"] ["confidence"]
          [("random_forest", demoMetricsRF)] "NFL" "20250101_120000"
          "2025-01-01T12:00:00").1
        ["random_forest"] ["confidence"] [("random_forest", demoMetricsGB)]
        "NFL" "20250101_120001" "2025-01-01T12:00:01").1
      (FileKey.latestFile "NFL") =
      some (FileData.jsonMeta (mkSaveMetadata "NFL"
        (mkVersion "20250101_120001") "2025-01-01T12:00:01" ["confidence"]
        [("random_forest", demoMetricsGB)] ["random_forest"])) ∧
    fsLookup
      (saveModels (saveModels [] ["random_forest"] ["confidence"]
          [("random_forest", demoMetricsRF)] "NFL" "20250101_120000"
          "2025-01-01T12:00:00").1
        ["random_forest"] ["confidence"] [("random_forest", demoMetricsGB)]
        "NFL" "20250101_120001" "2025-01-01T12:00:01").1
      (FileKey.metadataFile "NFL" (mkVersion "20250101_120000")) =
      some (FileData.jsonMeta (mkSaveMetadata "NFL"
        (mkVersion "20250101_120000") "2025-01-01T12:00:00" ["confidence"]
        [("random_forest", demoMetricsRF)] ["random_forest"])) ∧
    fsLookup
      (saveModels (saveModels [] ["random_forest"] ["confidence"]
          [("random_forest", demoMetricsRF)] "NFL" "20250101_120000"
          "2025-01-01T12:00:00").1
        ["random_forest"] ["confidence"] [("random_forest", demoMetricsGB)]
        "NFL" "20250101_120001" "2025-01-01T12:00:01").1
      (FileKey.scalerFile "NFL" (mkVersion "20250101_120000")) =
      some (FileData.joblibScaler (mkVersion "20250101_120000")) :=
  c8_registry_two_saves [] ["random_forest"] ["random_forest"]
    ["confidence"] ["confidence"] [("random_forest", demoMetricsRF)]
    [("random_forest", demoMetricsGB)] "NFL" "20250101_120000"
    "20250101_120001" "2025-01-01T12:00:00" "2025-01-01T12:00:01"
    (by decide)

end LinePointer
